import Mathlib

/-!
A shallow embedding of the core data-path pieces of the kvdo repository:
the 5-byte block-map entry codec (vdo/base/blockMapEntry.h), the recovery
journal lock counter (vdo/base/lockCounter.c), the data-VIO compression,
read and discard paths (vdo/kernel/dataKVIO.c), the slab reference-count
entry points (vdo/slab.c) and the assertion helpers (uds/permassert.c).

Machine integers are modelled as `Nat` with explicit `% 2 ^ w` reductions
where the C code can overflow.  Bit operations on nibbles and bytes are
written with `%` and `/` by powers of two (`x & 0x0F` is `x % 16`,
`x >> 32` is `x / 2 ^ 32`, and an or of disjoint bit ranges is a sum).
-/

/-! ## Block-map entry (vdo/base/blockMapEntry.h) -/

/-- Four bytes holding the 32 low-order PBN bits in little-endian order
(the `pbn_low_word` field of `block_map_entry`). -/
structure Bytes4 where
  b0 : Nat
  b1 : Nat
  b2 : Nat
  b3 : Nat
deriving DecidableEq

/-- numeric.h: store a 32-bit value as four little-endian bytes. -/
def put_unaligned_le32 (v : Nat) : Bytes4 :=
  { b0 := v % 2 ^ 8
  , b1 := v / 2 ^ 8 % 2 ^ 8
  , b2 := v / 2 ^ 16 % 2 ^ 8
  , b3 := v / 2 ^ 24 % 2 ^ 8 }

/-- numeric.h: read four little-endian bytes as a 32-bit value. -/
def get_unaligned_le32 (w : Bytes4) : Nat :=
  w.b0 + 2 ^ 8 * w.b1 + 2 ^ 16 * w.b2 + 2 ^ 24 * w.b3

/-- The packed five-byte block-map entry.  `mapping_state` is the 4-bit
state field (bits 3..0 of byte 0), `pbn_high_nibble` the four highest PBN
bits (bits 7..4 of byte 0), and `pbn_low_word` the 32 low PBN bits in
little-endian order (bytes 1..4). -/
structure block_map_entry where
  mapping_state : Nat
  pbn_high_nibble : Nat
  pbn_low_word : Bytes4
deriving DecidableEq

/-- The raw five-byte view of a packed entry (the `raw` member of the C
union): byte 0 packs the state in the low nibble and the high PBN nibble
in the high nibble; bytes 1..4 are the little-endian low word. -/
def block_map_entry_raw (e : block_map_entry) : List Nat :=
  [ e.mapping_state % 16 + 16 * (e.pbn_high_nibble % 16)
  , e.pbn_low_word.b0
  , e.pbn_low_word.b1
  , e.pbn_low_word.b2
  , e.pbn_low_word.b3 ]

/-- The unpacked location, with the 4-bit mapping-state code kept as a
raw number (the enum values of blockMappingState.h are not in src). -/
structure unpacked_entry where
  pbn : Nat
  state : Nat
deriving DecidableEq

/-- blockMapEntry.h `unpack_block_map_entry`: `(high4 << 32) | low32`
with `low32 < 2 ^ 32`, so the or of the disjoint bit ranges is a sum. -/
def unpack_block_map_entry (e : block_map_entry) : unpacked_entry :=
  { pbn := e.pbn_high_nibble * 2 ^ 32 + get_unaligned_le32 e.pbn_low_word
  , state := e.mapping_state }

/-- blockMapEntry.h `pack_pbn`: `mapping_state & 0x0F`,
`(pbn >> 32) & 0x0F`, and `pbn & UINT_MAX` stored little-endian. -/
def pack_pbn (pbn : Nat) (mapping_state : Nat) : block_map_entry :=
  { mapping_state := mapping_state % 16
  , pbn_high_nibble := pbn / 2 ^ 32 % 16
  , pbn_low_word := put_unaligned_le32 (pbn % 2 ^ 32) }

/-! ## Mapping states and data locations

Modelled from the spec: blockMappingState.h is not in src.  Per the spec
the 4-bit tag enumerates `UNMAPPED`, `UNCOMPRESSED`, and fourteen
`COMPRESSED_BASE + k` values for `k ∈ [0, 13]` naming the fragment slot
of a shared compressed block. -/
inductive BlockMappingState where
  | unmapped
  | uncompressed
  | compressed (slot : Fin 14)
deriving DecidableEq

/-- Modelled from the spec: `is_compressed` of blockMappingState.h (not
in src); true exactly on the fourteen compressed fragment states. -/
def is_compressed (s : BlockMappingState) : Bool :=
  match s with
  | BlockMappingState.compressed _ => true
  | _ => false

/-- Modelled from the spec: constants.h is not in src; PBN 0 is reserved
as the zero block. -/
def ZERO_BLOCK : Nat := 0

/-- types.h `data_location`: a PBN together with its mapping state. -/
structure data_location where
  pbn : Nat
  state : BlockMappingState
deriving DecidableEq

/-- blockMapEntry.h `is_mapped_location`:
`location->state != MAPPING_STATE_UNMAPPED`. -/
def is_mapped_location (l : data_location) : Bool :=
  decide (l.state ≠ BlockMappingState.unmapped)

/-- blockMapEntry.h `is_valid_location`: the zero block must not carry a
compressed state; any other block must be mapped. -/
def is_valid_location (l : data_location) : Bool :=
  if l.pbn = ZERO_BLOCK then ! is_compressed l.state else is_mapped_location l

/-! ## Lock counter (vdo/base/lockCounter.c)

The counter state is modelled per lock with total functions: `uint16_t`
per-zone counters and `Atomic32` totals become `Nat` maps reduced mod
`2 ^ 16` and `2 ^ 32` where the C arithmetic can wrap.  Each operation
that may call `invoke_callback` on the owner's completion returns the
new state together with a Bool recording whether the callback (the
lock-release notification to the journal thread) was invoked. -/

/-- lockCounter.h `ZoneType`: journal, logical, or physical zone. -/
inductive ZoneType where
  | journal
  | logical
  | physical
deriving DecidableEq

/-- Pointwise update of a one-index counter map. -/
def updFn (f : Nat → Nat) (i v : Nat) : Nat → Nat :=
  fun j => if j = i then v else f j

/-- Pointwise update of a (zone, lock)-indexed counter map. -/
def updFn2 (f : Nat → Nat → Nat) (z n v : Nat) : Nat → Nat → Nat :=
  fun z2 n2 => if z2 = z ∧ n2 = n then v else f z2 n2

/-- The `lock_counter` state: the `notifying` flag, the journal-zone
counters and batched decrement counts (per lock), the per-zone per-lock
logical and physical counters, and the atomic zones-holding totals. -/
structure lock_counter where
  notifying : Bool
  journal_counters : Nat → Nat
  journal_decrement_counts : Nat → Nat
  logical_counters : Nat → Nat → Nat
  physical_counters : Nat → Nat → Nat
  logical_zone_counts : Nat → Nat
  physical_zone_counts : Nat → Nat

/-- `get_zone_count_ptr` as a read: logical-type reads go to the logical
totals, everything else (the callers assert non-journal) to the physical
totals. -/
def get_zone_count (c : lock_counter) (lock_number : Nat) (zone_type : ZoneType) : Nat :=
  if zone_type = ZoneType.logical then c.logical_zone_counts lock_number
  else c.physical_zone_counts lock_number

/-- `get_zone_count_ptr` as a write: store `v` as the total selected the
same way the read is. -/
def set_zone_count (c : lock_counter) (lock_number : Nat) (zone_type : ZoneType) (v : Nat) :
    lock_counter :=
  if zone_type = ZoneType.logical then
    { c with logical_zone_counts := updFn c.logical_zone_counts lock_number v }
  else
    { c with physical_zone_counts := updFn c.physical_zone_counts lock_number v }

/-- `get_counter` as a read: the journal zone has a single counter per
lock (the journal callers pass zone 0); logical and physical zones are
indexed by zone id and lock. -/
def get_counter (c : lock_counter) (lock_number : Nat) (zone_type : ZoneType) (zone_id : Nat) :
    Nat :=
  match zone_type with
  | ZoneType.journal => c.journal_counters lock_number
  | ZoneType.logical => c.logical_counters zone_id lock_number
  | ZoneType.physical => c.physical_counters zone_id lock_number

/-- `get_counter` as a write: store `v` in the counter selected the same
way the read is. -/
def set_counter (c : lock_counter) (lock_number : Nat) (zone_type : ZoneType) (zone_id : Nat)
    (v : Nat) : lock_counter :=
  match zone_type with
  | ZoneType.journal =>
    { c with journal_counters := updFn c.journal_counters lock_number v }
  | ZoneType.logical =>
    { c with logical_counters := updFn2 c.logical_counters zone_id lock_number v }
  | ZoneType.physical =>
    { c with physical_counters := updFn2 c.physical_counters zone_id lock_number v }

/-- `is_journal_zone_locked`: the journal value differs from the batched
decrement count.  (Its `ASSERT_LOG_ONLY` is `journal_lock_assert_ok`.) -/
def is_journal_zone_locked (c : lock_counter) (lock_number : Nat) : Bool :=
  decide (c.journal_counters lock_number ≠ c.journal_decrement_counts lock_number)

/-- The condition asserted (log-only) by `is_journal_zone_locked`: the
batched decrements must not exceed the journal value. -/
def journal_lock_assert_ok (c : lock_counter) (lock_number : Nat) : Bool :=
  decide (c.journal_decrement_counts lock_number ≤ c.journal_counters lock_number)

/-- `is_locked` (callers assert a non-journal zone type): locked while
the journal zone is locked or the zone-type total is nonzero. -/
def is_locked (c : lock_counter) (lock_number : Nat) (zone_type : ZoneType) : Bool :=
  is_journal_zone_locked c lock_number ||
    decide (get_zone_count c lock_number zone_type ≠ 0)

/-- `attempt_notification`: compare-and-swap `notifying` from false to
true; on success reset the completion and invoke the owner's callback
(recorded as the returned Bool), otherwise do nothing. -/
def attempt_notification (c : lock_counter) : lock_counter × Bool :=
  if c.notifying then (c, false) else ({ c with notifying := true }, true)

/-- `release_reference`: decrement a non-atomic `uint16_t` counter
(asserted log-only not to underflow) and return its new value. -/
def release_reference (c : lock_counter) (lock_number : Nat) (zone_type : ZoneType)
    (zone_id : Nat) : lock_counter × Nat :=
  let v := (get_counter c lock_number zone_type zone_id + (2 ^ 16 - 1)) % 2 ^ 16
  (set_counter c lock_number zone_type zone_id v, v)

/-- `acquire_lock_count_reference` (asserted non-journal): bump the
zones-holding total when the zone acquires its first reference, then
increment the per-zone counter. -/
def acquire_lock_count_reference (c : lock_counter) (lock_number : Nat) (zone_type : ZoneType)
    (zone_id : Nat) : lock_counter :=
  let cur := get_counter c lock_number zone_type zone_id
  let c1 :=
    if cur = 0 then
      set_zone_count c lock_number zone_type
        ((get_zone_count c lock_number zone_type + 1) % 2 ^ 32)
    else c
  set_counter c1 lock_number zone_type zone_id ((cur + 1) % 2 ^ 16)

/-- `release_lock_count_reference` (asserted non-journal): release one
per-zone reference; when the zone drops its last reference, decrement
the zones-holding total, and when that total reaches zero attempt a
notification. -/
def release_lock_count_reference (c : lock_counter) (lock_number : Nat) (zone_type : ZoneType)
    (zone_id : Nat) : lock_counter × Bool :=
  let r := release_reference c lock_number zone_type zone_id
  if r.2 ≠ 0 then (r.1, false)
  else
    let total := (get_zone_count r.1 lock_number zone_type + (2 ^ 32 - 1)) % 2 ^ 32
    let c2 := set_zone_count r.1 lock_number zone_type total
    if total = 0 then attempt_notification c2 else (c2, false)

/-- `release_journal_zone_reference` (journal thread): release one
journal-zone reference and attempt a notification when the journal zone
is no longer locked. -/
def release_journal_zone_reference (c : lock_counter) (lock_number : Nat) :
    lock_counter × Bool :=
  let r := release_reference c lock_number ZoneType.journal 0
  if ! is_journal_zone_locked r.1 lock_number then attempt_notification r.1
  else (r.1, false)

/-- `release_journal_zone_reference_from_other_zone`: atomically add one
to the batched journal decrement count for the lock. -/
def release_journal_zone_reference_from_other_zone (c : lock_counter) (lock_number : Nat) :
    lock_counter :=
  let d := (c.journal_decrement_counts lock_number + 1) % 2 ^ 32
  { c with journal_decrement_counts := updFn c.journal_decrement_counts lock_number d }

/-- `acknowledge_unlock`: clear the `notifying` flag. -/
def acknowledge_unlock (c : lock_counter) : lock_counter :=
  { c with notifying := false }

/-- A concrete counter state with a notification already in flight,
used to witness the coalescing claims. -/
def lcNotifying : lock_counter :=
  { notifying := true
  , journal_counters := fun _ => 1
  , journal_decrement_counts := fun _ => 0
  , logical_counters := fun _ _ => 1
  , physical_counters := fun _ _ => 1
  , logical_zone_counts := fun _ => 1
  , physical_zone_counts := fun _ => 1 }

/-- A concrete counter state in which lock 0 is held once by the journal
zone, once by logical zone 0, and once by physical zone 0, with no
notification in flight. -/
def lcHeldByAll : lock_counter :=
  { notifying := false
  , journal_counters := fun _ => 1
  , journal_decrement_counts := fun _ => 0
  , logical_counters := fun _ _ => 1
  , physical_counters := fun _ _ => 1
  , logical_zone_counts := fun _ => 1
  , physical_zone_counts := fun _ => 1 }

/-! ## Theorems -/

/-- C1: unpacking the entry produced by `pack_pbn p s` yields exactly the
state `s % 16` and the PBN `p % 2 ^ 36`; the 5-byte encoding stores the
state in the low nibble of byte 0, PBN bits 32..35 in the high nibble of
byte 0, and the low 32 PBN bits little-endian in bytes 1..4, with PBN
bits above bit 35 silently truncated on pack. -/
theorem pack_pbn_unpack_roundtrip (p s : Nat) :
    (unpack_block_map_entry (pack_pbn p s)).state = s % 16 ∧
    (unpack_block_map_entry (pack_pbn p s)).pbn = p % 2 ^ 36 ∧
    block_map_entry_raw (pack_pbn p s) =
      [ s % 16 + 16 * (p / 2 ^ 32 % 16)
      , p % 2 ^ 8
      , p / 2 ^ 8 % 2 ^ 8
      , p / 2 ^ 16 % 2 ^ 8
      , p / 2 ^ 24 % 2 ^ 8 ] := by
  refine ⟨rfl, ?_, ?_⟩
  · show p / 2 ^ 32 % 16 * 2 ^ 32 +
        (p % 2 ^ 32 % 2 ^ 8 + 2 ^ 8 * (p % 2 ^ 32 / 2 ^ 8 % 2 ^ 8) +
         2 ^ 16 * (p % 2 ^ 32 / 2 ^ 16 % 2 ^ 8) +
         2 ^ 24 * (p % 2 ^ 32 / 2 ^ 24 % 2 ^ 8)) = p % 2 ^ 36
    omega
  · simp only [block_map_entry_raw, pack_pbn, put_unaligned_le32,
      List.cons.injEq, and_true]
    refine ⟨by omega, by omega, by omega, by omega, by omega⟩

/-- C8: `is_valid_location` holds for `(pbn, state)` if and only if: when
the PBN is the zero block the state is not compressed (so UNMAPPED at PBN
0 is valid), and when the PBN is nonzero the state is not UNMAPPED. -/
theorem is_valid_location_characterization (l : data_location) :
    (is_valid_location l = true ↔
      ((l.pbn = ZERO_BLOCK → is_compressed l.state = false) ∧
       (l.pbn ≠ ZERO_BLOCK → l.state ≠ BlockMappingState.unmapped))) ∧
    is_valid_location { pbn := ZERO_BLOCK, state := BlockMappingState.unmapped } = true := by
  constructor
  · by_cases h : l.pbn = ZERO_BLOCK
    · cases hs : l.state <;>
        simp [is_valid_location, is_mapped_location, is_compressed, h, hs]
    · cases hs : l.state <;>
        simp [is_valid_location, is_mapped_location, is_compressed, h, hs]
  · rfl


/-! ## Data-VIO compression, read and discard paths (vdo/kernel/dataKVIO.c)

The external collaborators (LZ4, the compressed-block parser, the block
device) appear as parameters: the LZ4 return values and the validity of
the compressed-block header are inputs, and the embedding computes what
dataKVIO.c does with them. -/

/-- Modelled from the spec: constants.h is not in src; the block size is
fixed at 4 KiB. -/
def VDO_BLOCK_SIZE : Nat := 4096

/-- statusCodes.h / errors.h are not in src.  `VDO_SUCCESS` is zero; the
other codes are distinct nonzero placeholders (only their distinctness
from success and from each other is used). -/
def VDO_SUCCESS : Int := 0

/-- The fatal-to-the-request code for a malformed compressed fragment. -/
def VDO_INVALID_FRAGMENT : Int := 2064

/-- The code returned by a failed internal correctness predicate. -/
def UDS_ASSERTION_FAILED : Int := 1035

/-- The `compression` record of a data_vio as the compression path sees
it: whether `data` points at the scratch block, and the recorded size. -/
structure vio_compression where
  dataIsScratch : Bool
  size : Int
deriving DecidableEq

/-- The result of running the compression stage: whether the LZ4
compressor work item was ever queued, and the final compression record. -/
structure compress_outcome where
  compressorInvoked : Bool
  compression : vio_compression
deriving DecidableEq

/-- dataKVIO.c `kvdo_compress_work`: run LZ4 with the block size as the
output limit; a positive result means the scratch block holds that many
compressed bytes, otherwise record block size plus one as the
uncompressible indicator. -/
def kvdo_compress_work (comp : vio_compression) (lz4_size : Int) : vio_compression :=
  if 0 < lz4_size then { dataIsScratch := true, size := lz4_size }
  else { comp with size := VDO_BLOCK_SIZE + 1 }

/-- dataKVIO.c `compressDataVIO`: a partial discard that is part of a
larger discard is marked uncompressible immediately and never queued to
the compressor; anything else is handed to `kvdo_compress_work` on the
CPU queue. -/
def compressDataVio (is_discard : Bool) (remaining_discard : Nat) (comp : vio_compression)
    (lz4_size : Int) : compress_outcome :=
  if is_discard = true ∧ 0 < remaining_discard then
    { compressorInvoked := false, compression := { comp with size := VDO_BLOCK_SIZE + 1 } }
  else
    { compressorInvoked := true, compression := kvdo_compress_work comp lz4_size }

/-- Which kind of device read `readDataVIO` submits. -/
inductive read_path where
  | compressedRead (pbn : Nat) (state : BlockMappingState)
  | directRead (pbn : Nat)
deriving DecidableEq

/-- dataKVIO.c `readDataVIO`: a compressed mapping state routes the read
through `kvdo_read_block` at `mapped.pbn` (decompressing afterwards);
anything else submits the user bio directly at `mapped.pbn`. -/
def readDataVio (mapped : data_location) : read_path :=
  if is_compressed mapped.state then read_path.compressedRead mapped.pbn mapped.state
  else read_path.directRead mapped.pbn

/-- The fragment slot of a compressed block: byte offset and size. -/
structure compressed_fragment where
  offset : Nat
  size : Nat
deriving DecidableEq

/-- Modelled from the spec: `get_compressed_block_fragment`
(compressedBlock.c is not in src).  Per the spec a compressed block with
a malformed header fails the read with `INVALID_FRAGMENT`; a valid
header yields the fragment slot selected by the mapping state. -/
def get_compressed_block_fragment (header_valid : Bool) (frag : compressed_fragment) :
    Except Int compressed_fragment :=
  if header_valid then Except.ok frag else Except.error VDO_INVALID_FRAGMENT

/-- The `read_block` of a data_kvio: its status and whether `data` has
been switched to the scratch block holding decompressed bytes. -/
structure read_block where
  status : Int
  dataIsScratch : Bool
deriving DecidableEq

/-- dataKVIO.c `uncompress_read_block`: extract the fragment for the
mapping state (failing with the extraction error), LZ4-decompress it,
and either adopt the scratch block as the read data when exactly one
full block came out or fail with `VDO_INVALID_FRAGMENT`.
`lz4_size` is the `LZ4_uncompress_unknownOutputSize` return value. -/
def uncompress_read_block (header_valid : Bool) (frag : compressed_fragment)
    (lz4_size : Int) (rb : read_block) : read_block :=
  match get_compressed_block_fragment header_valid frag with
  | Except.error e => { rb with status := e }
  | Except.ok _ =>
    if lz4_size = (VDO_BLOCK_SIZE : Int) then { rb with dataIsScratch := true }
    else { rb with status := VDO_INVALID_FRAGMENT }

/-- What `acknowledgeDataVIO` does with the user bio. -/
inductive ack_action where
  | reinvoke
  | acknowledge
deriving DecidableEq

/-- dataKVIO.c `acknowledgeDataVIO`: a discard bio whose remaining work
exceeds what this VIO covers (`VDO_BLOCK_SIZE - offset`) re-invokes the
VIO's callback instead of acknowledging; otherwise the bio is completed
(on the bio-ack queue or inline).  `offset` is the in-block byte offset
and is at most `VDO_BLOCK_SIZE`, so Nat subtraction matches the unsigned
C subtraction. -/
def acknowledgeDataVio (is_discard : Bool) (remaining_discard offset : Nat) : ack_action :=
  if is_discard = true ∧ VDO_BLOCK_SIZE - offset < remaining_discard then ack_action.reinvoke
  else ack_action.acknowledge

/-- How `kvdo_continue_discard_kvio` proceeds after one block of discard
work; `rmw` is the relaunched VIO's partial-block flag, which turns the
relaunch into a read-modify-write. -/
inductive discard_next where
  | complete
  | relaunch (lbn : Nat) (rmw : Bool)
deriving DecidableEq

/-- dataKVIO.c `kvdo_continue_discard_kvio`: subtract the work just done
(`min remaining (VDO_BLOCK_SIZE - offset)`), then either complete the
VIO (on error or when nothing remains, releasing any discard permit) or
relaunch it at the next LBN with offset 0, as a read-modify-write when
less than a full block remains. -/
def kvdo_continue_discard_kvio (result : Int) (remaining_discard offset lbn : Nat) :
    Nat × discard_next :=
  let r := remaining_discard - min remaining_discard (VDO_BLOCK_SIZE - offset)
  if result ≠ VDO_SUCCESS ∨ r = 0 then (r, discard_next.complete)
  else (r, discard_next.relaunch (lbn + 1) (decide (r < VDO_BLOCK_SIZE)))

/-! ## Assertions and slabs (uds/permassert.c, vdo/slab.c) -/

/-- permassert.c `assertion_failed`: log the failure and return the
caller-supplied code (the logging side effect is dropped). -/
def assertion_failed (code : Int) : Int :=
  code

/-- permassert.c `assertion_failed_log_only`: log the failure and return
`UDS_ASSERTION_FAILED`. -/
def assertion_failed_log_only : Int :=
  UDS_ASSERTION_FAILED

/-- Modelled from the spec: the `ASSERT` macro (permassert.h is not in
src) evaluates its predicate and on failure reports through
`assertion_failed` with `UDS_ASSERTION_FAILED`; per the spec a failing
correctness predicate returns `ASSERTION_FAILED` to the caller. -/
def vdo_assert (cond : Bool) : Int :=
  if cond then VDO_SUCCESS else assertion_failed UDS_ASSERTION_FAILED

/-- slab.h `slab_rebuild_status`: the scrubbing status of a slab. -/
inductive slab_rebuild_status where
  | rebuilt
  | requiresScrubbing
  | requiresHighPriorityScrubbing
  | rebuilding
  | replaying
deriving DecidableEq

/-- refCounts.c is not in src; the reference-count array is kept
abstract as its list of one-byte counters. -/
structure ref_counts where
  counts : List Nat
deriving DecidableEq

/-- The slab state the claims touch: its number, scrubbing status,
optional reference counts (NULL becomes `none`), the slab journal's
per-recovery-sequence lock references, and the free-block count. -/
structure vdo_slab where
  slab_number : Nat
  status : slab_rebuild_status
  reference_counts : Option ref_counts
  journal_block_refs : Nat → Int
  free_block_count : Nat

/-- Modelled from the spec: `make_ref_counts` (refCounts.c not in src)
creates the per-slab array of one-byte counters, all free (zero). -/
def make_ref_counts (data_blocks : Nat) : ref_counts :=
  { counts := List.replicate data_blocks 0 }

/-- slab.c `allocate_ref_counts_for_slab`: assert that the slab does not
already have reference counts (returning the assertion failure and
leaving the slab untouched when it does), then attach a fresh
reference-count array. -/
def allocate_ref_counts_for_slab (slab : vdo_slab) (data_blocks : Nat) : Int × vdo_slab :=
  let result := vdo_assert (decide (slab.reference_counts = none))
  if result ≠ VDO_SUCCESS then (result, slab)
  else (VDO_SUCCESS, { slab with reference_counts := some (make_ref_counts data_blocks) })

/-- Modelled from the spec: `is_unrecovered_slab` (slab.h not in src); a
slab is unrecovered unless its status is fully rebuilt. -/
def is_unrecovered_slab (slab : vdo_slab) : Bool :=
  decide (slab.status ≠ slab_rebuild_status.rebuilt)

/-- Modelled from the spec: `adjust_slab_journal_block_reference`
(slabJournal.c not in src) adds `delta` to the slab journal's lock count
on the given recovery-journal sequence number. -/
def adjust_slab_journal_block_reference (refs : Nat → Int) (sequence_number : Nat)
    (delta : Int) : Nat → Int :=
  fun s => if s = sequence_number then refs s + delta else refs s

/-- Modelled from the spec: `adjust_vdo_free_block_count` (the block
allocator is not in src) adjusts the slab's free-block count up or down
by one. -/
def adjust_vdo_free_block_count (slab : vdo_slab) (increment : Bool) : vdo_slab :=
  if increment then { slab with free_block_count := slab.free_block_count + 1 }
  else { slab with free_block_count := slab.free_block_count - 1 }

/-- A journal point: a sequence number and an entry count. -/
structure journal_point where
  sequence_number : Nat
  entry_count : Nat
deriving DecidableEq

/-- slab.c `modify_slab_reference_count`.  A NULL slab (the zero block)
is a success with no effect.  An unrecovered slab preserves its refCount
state — scrubbing will correct it — and only releases one slab-journal
block reference on the journal point's sequence number.  Otherwise the
reference adjustment (refCounts.c, abstract here as `adjust`, returning
the new counts and whether a count moved between zero and nonzero) is
applied, and a free-status change adjusts the slab's free-block count. -/
def modify_slab_reference_count (slab_arg : Option vdo_slab) (jp : journal_point)
    (adjust : Option ref_counts → Except Int (Option ref_counts × Bool))
    (is_increment : Bool) : Int × Option vdo_slab :=
  match slab_arg with
  | none => (VDO_SUCCESS, none)
  | some slab =>
    if is_unrecovered_slab slab then
      (VDO_SUCCESS, some { slab with journal_block_refs :=
        adjust_slab_journal_block_reference slab.journal_block_refs jp.sequence_number (-1) })
    else
      match adjust slab.reference_counts with
      | Except.error e => (e, some slab)
      | Except.ok (rc2, free_status_changed) =>
        let slab2 := { slab with reference_counts := rc2 }
        (VDO_SUCCESS,
         some (if free_status_changed then adjust_vdo_free_block_count slab2 (! is_increment)
               else slab2))

/-- A concrete unrecovered slab used to witness the frame claims. -/
def slabUnrecovered : vdo_slab :=
  { slab_number := 3
  , status := slab_rebuild_status.requiresScrubbing
  , reference_counts := some { counts := [1, 0, 2] }
  , journal_block_refs := fun _ => 5
  , free_block_count := 7 }

/-- A concrete rebuilt slab that already has reference counts, used to
witness the assertion-failure claim. -/
def slabWithRefCounts : vdo_slab :=
  { slab_number := 4
  , status := slab_rebuild_status.rebuilt
  , reference_counts := some { counts := [1, 1] }
  , journal_block_refs := fun _ => 0
  , free_block_count := 0 }

/-! ## Theorems -/

theorem set_counter_notifying (c : lock_counter) (n : Nat) (t : ZoneType) (z v : Nat) :
    (set_counter c n t z v).notifying = c.notifying := by
  cases t <;> rfl

theorem set_zone_count_notifying (c : lock_counter) (n : Nat) (t : ZoneType) (v : Nat) :
    (set_zone_count c n t v).notifying = c.notifying := by
  unfold set_zone_count
  split <;> rfl

theorem get_counter_set_counter_same (c : lock_counter) (n : Nat) (t : ZoneType) (z v : Nat) :
    get_counter (set_counter c n t z v) n t z = v := by
  cases t <;> simp [get_counter, set_counter, updFn, updFn2]

theorem get_counter_set_zone_count (c : lock_counter) (n : Nat) (t t2 : ZoneType) (z v : Nat)
    (m : Nat) : get_counter (set_zone_count c m t2 v) n t z = get_counter c n t z := by
  unfold set_zone_count
  split <;> cases t <;> rfl

theorem get_zone_count_set_counter (c : lock_counter) (n m : Nat) (t t2 : ZoneType) (z v : Nat) :
    get_zone_count (set_counter c m t2 z v) n t = get_zone_count c n t := by
  cases t2 <;> unfold get_zone_count set_counter <;> split <;> rfl

theorem get_zone_count_set_zone_count_same (c : lock_counter) (n : Nat) (t : ZoneType) (v : Nat) :
    get_zone_count (set_zone_count c n t v) n t = v := by
  unfold get_zone_count set_zone_count
  split <;> simp [updFn]

theorem get_counter_attempt (c : lock_counter) (n : Nat) (t : ZoneType) (z : Nat) :
    get_counter (attempt_notification c).1 n t z = get_counter c n t z := by
  unfold attempt_notification
  split <;> cases t <;> rfl

theorem get_zone_count_attempt (c : lock_counter) (n : Nat) (t : ZoneType) :
    get_zone_count (attempt_notification c).1 n t = get_zone_count c n t := by
  unfold attempt_notification get_zone_count
  split <;> split <;> rfl

theorem is_journal_zone_locked_attempt (c : lock_counter) (n : Nat) :
    is_journal_zone_locked (attempt_notification c).1 n = is_journal_zone_locked c n := by
  unfold attempt_notification
  split <;> rfl

theorem attempt_notification_snd (c : lock_counter) :
    (attempt_notification c).2 = ! c.notifying := by
  unfold attempt_notification
  split <;> simp_all

/-- C3: the lock counter has at most one notification in flight:
`attempt_notification` invokes the owner's callback exactly when it flips
`notifying` from false to true (and `notifying` is true afterwards), any
release performed while `notifying` is true is absorbed without invoking
the callback, and `acknowledge_unlock` resets `notifying` to false. -/
theorem lock_counter_notification_coalescing :
    (∀ c : lock_counter,
      ((attempt_notification c).2 = true ↔ c.notifying = false) ∧
      (attempt_notification c).1.notifying = true) ∧
    (∀ (c : lock_counter) (n : Nat) (t : ZoneType) (z : Nat),
      c.notifying = true → (release_lock_count_reference c n t z).2 = false) ∧
    (∀ (c : lock_counter) (n : Nat),
      c.notifying = true → (release_journal_zone_reference c n).2 = false) ∧
    (∀ c : lock_counter, (acknowledge_unlock c).notifying = false) := by
  refine ⟨?_, ?_, ?_, ?_⟩
  · intro c
    unfold attempt_notification
    constructor
    · split <;> simp_all
    · split <;> simp_all
  · intro c n t z h
    unfold release_lock_count_reference release_reference attempt_notification
    simp only []
    split
    · rfl
    · split
      · split
        · rfl
        · exfalso
          rename_i hnot
          rw [set_zone_count_notifying, set_counter_notifying] at hnot
          exact hnot h
      · rfl
  · intro c n h
    unfold release_journal_zone_reference release_reference attempt_notification
    simp only []
    split
    · split
      · rfl
      · exfalso
        rename_i hnot
        rw [set_counter_notifying] at hnot
        exact hnot h
    · rfl
  · intro c
    rfl

theorem lock_counter_notification_coalescing_witness :
    lcNotifying.notifying = true ∧
    (release_lock_count_reference lcNotifying 0 ZoneType.logical 0).2 = false :=
  ⟨rfl, lock_counter_notification_coalescing.2.1 lcNotifying 0 ZoneType.logical 0 rfl⟩

/-- C2 counterexample: in `lcHeldByAll`, lock 0 is held by the journal
zone (count 1, no batched decrements), by logical zone 0, and by physical
zone 0.  Releasing the single logical-zone reference invokes the owner's
completion callback even though the physical zone total is still 1 and
the journal zone is still locked, refuting the claim that the owner is
notified only when all three zone-type totals for the lock are zero. -/
theorem release_notifies_while_other_zones_hold :
    (release_lock_count_reference lcHeldByAll 0 ZoneType.logical 0).2 = true ∧
    (release_lock_count_reference lcHeldByAll 0 ZoneType.logical 0).1.physical_zone_counts 0
      = 1 ∧
    is_journal_zone_locked
      (release_lock_count_reference lcHeldByAll 0 ZoneType.logical 0).1 0 = true := by
  refine ⟨by decide, by decide, by decide⟩

/-- C2 (amended): a lock-release notification is enqueued to the journal
thread exactly when the release empties the releasing zone's own counter
and drops that single zone type's total to zero (for a journal release,
exactly when the journal zone's counter becomes fully decremented) while
no notification is in flight; the other zone-type totals need not be
zero and the owner re-checks with `is_locked`. -/
theorem release_notification_condition :
    (∀ (c : lock_counter) (n : Nat) (t : ZoneType) (z : Nat),
      (release_lock_count_reference c n t z).2 = true ↔
        (get_counter (release_lock_count_reference c n t z).1 n t z = 0 ∧
         get_zone_count (release_lock_count_reference c n t z).1 n t = 0 ∧
         c.notifying = false)) ∧
    (∀ (c : lock_counter) (n : Nat),
      (release_journal_zone_reference c n).2 = true ↔
        (is_journal_zone_locked (release_journal_zone_reference c n).1 n = false ∧
         c.notifying = false)) := by
  constructor
  · intro c n t z
    unfold release_lock_count_reference release_reference
    simp only []
    split
    · rename_i hv
      simp only [get_counter_set_counter_same]
      constructor
      · intro hb
        exact absurd hb (by simp)
      · intro h3
        exact absurd h3.1 hv
    · rename_i hv
      simp only [ne_eq, not_not] at hv
      split
      · rename_i htot
        rw [attempt_notification_snd, set_zone_count_notifying, set_counter_notifying]
        rw [get_counter_attempt, get_zone_count_attempt, get_counter_set_zone_count,
          get_counter_set_counter_same, get_zone_count_set_zone_count_same]
        rw [htot, hv]
        simp
      · rename_i htot
        rw [get_counter_set_zone_count, get_counter_set_counter_same,
          get_zone_count_set_zone_count_same]
        constructor
        · intro hb
          exact absurd hb (by simp)
        · intro h3
          exact absurd h3.2.1 htot
  · intro c n
    unfold release_journal_zone_reference release_reference
    simp only []
    split
    · rename_i hlk
      simp only [Bool.not_eq_true'] at hlk
      rw [attempt_notification_snd, set_counter_notifying, is_journal_zone_locked_attempt]
      rw [hlk]
      simp
    · rename_i hlk
      have hlk2 :
          is_journal_zone_locked
            (set_counter c n ZoneType.journal 0
              ((get_counter c n ZoneType.journal 0 + (2 ^ 16 - 1)) % 2 ^ 16)) n = true := by
        simpa using hlk
      constructor
      · intro hb
        exact absurd hb (by simp)
      · intro h3
        have h4 : is_journal_zone_locked
            (set_counter c n ZoneType.journal 0
              ((get_counter c n ZoneType.journal 0 + (2 ^ 16 - 1)) % 2 ^ 16)) n = false := h3.1
        rw [hlk2] at h4
        exact absurd h4 (by simp)

/-- C4: `is_locked` is false for a non-journal zone type exactly when the
journal counter equals the batched decrement count and the zone-type
total is zero; `release_journal_zone_reference_from_other_zone` adds one
(mod 2^32, hence exactly one absent overflow) to the lock's batched
decrement count and modifies no other counter; and the journal-thread
check asserts that the batched decrements never exceed the journal
counter value. -/
theorem is_locked_and_batched_decrements :
    (∀ (c : lock_counter) (n : Nat) (t : ZoneType), t ≠ ZoneType.journal →
      (is_locked c n t = false ↔
        (c.journal_counters n = c.journal_decrement_counts n ∧
         get_zone_count c n t = 0))) ∧
    (∀ (c : lock_counter) (n : Nat),
      (release_journal_zone_reference_from_other_zone c n).journal_decrement_counts n =
        (c.journal_decrement_counts n + 1) % 2 ^ 32 ∧
      (c.journal_decrement_counts n + 1 < 2 ^ 32 →
        (release_journal_zone_reference_from_other_zone c n).journal_decrement_counts n =
          c.journal_decrement_counts n + 1) ∧
      (∀ m : Nat, m ≠ n →
        (release_journal_zone_reference_from_other_zone c n).journal_decrement_counts m =
          c.journal_decrement_counts m) ∧
      (release_journal_zone_reference_from_other_zone c n).journal_counters =
        c.journal_counters ∧
      (release_journal_zone_reference_from_other_zone c n).logical_counters =
        c.logical_counters ∧
      (release_journal_zone_reference_from_other_zone c n).physical_counters =
        c.physical_counters ∧
      (release_journal_zone_reference_from_other_zone c n).logical_zone_counts =
        c.logical_zone_counts ∧
      (release_journal_zone_reference_from_other_zone c n).physical_zone_counts =
        c.physical_zone_counts ∧
      (release_journal_zone_reference_from_other_zone c n).notifying = c.notifying) ∧
    (∀ (c : lock_counter) (n : Nat),
      journal_lock_assert_ok c n = false ↔
        c.journal_counters n < c.journal_decrement_counts n) := by
  refine ⟨?_, ?_, ?_⟩
  · intro c n t _
    unfold is_locked is_journal_zone_locked
    simp [not_or]
  · intro c n
    have hd : (release_journal_zone_reference_from_other_zone c n).journal_decrement_counts =
        updFn c.journal_decrement_counts n ((c.journal_decrement_counts n + 1) % 2 ^ 32) := rfl
    refine ⟨?_, ?_, ?_, rfl, rfl, rfl, rfl, rfl, rfl⟩
    · rw [hd]
      simp [updFn]
    · intro h
      rw [hd]
      simp [updFn]
      omega
    · intro m hm
      rw [hd]
      simp [updFn, hm]
  · intro c n
    unfold journal_lock_assert_ok
    simp

theorem is_locked_and_batched_decrements_witness :
    ZoneType.logical ≠ ZoneType.journal ∧
    (is_locked lcHeldByAll 0 ZoneType.logical = false ↔
      (lcHeldByAll.journal_counters 0 = lcHeldByAll.journal_decrement_counts 0 ∧
       get_zone_count lcHeldByAll 0 ZoneType.logical = 0)) :=
  ⟨by decide,
   is_locked_and_batched_decrements.1 lcHeldByAll 0 ZoneType.logical (by decide)⟩

/-- C5: after the compression stage of a write data VIO, exactly one of
two outcomes holds: when LZ4 produced output within the block limit
(a positive return), `compression.data` points at the scratch block and
`compression.size` is that positive size; otherwise `compression.size`
is `VDO_BLOCK_SIZE + 1`, the uncompressible indicator.  A discard bio
with remaining discard work is marked uncompressible without the
compressor ever being queued. -/
theorem compress_stage_outcomes (is_discard : Bool) (remaining : Nat)
    (comp : vio_compression) (lz4_size : Int) :
    (¬(is_discard = true ∧ 0 < remaining) → 0 < lz4_size →
      ((compressDataVio is_discard remaining comp lz4_size).compression.dataIsScratch = true ∧
       (compressDataVio is_discard remaining comp lz4_size).compression.size = lz4_size)) ∧
    (¬(is_discard = true ∧ 0 < remaining) → lz4_size ≤ 0 →
      (compressDataVio is_discard remaining comp lz4_size).compression.size =
        VDO_BLOCK_SIZE + 1) ∧
    (is_discard = true → 0 < remaining →
      ((compressDataVio is_discard remaining comp lz4_size).compression.size =
         VDO_BLOCK_SIZE + 1 ∧
       (compressDataVio is_discard remaining comp lz4_size).compressorInvoked = false)) := by
  refine ⟨?_, ?_, ?_⟩
  · intro h1 h2
    simp [compressDataVio, kvdo_compress_work, h1, h2]
  · intro h1 h2
    simp [compressDataVio, kvdo_compress_work, h1, Int.not_lt.mpr h2]
  · intro h1 h2
    simp [compressDataVio, h1, h2]

theorem compress_stage_outcomes_witness :
    (true = true ∧ 0 < 8192) ∧
    ((compressDataVio true 8192 { dataIsScratch := false, size := 0 } 100).compression.size =
       VDO_BLOCK_SIZE + 1 ∧
     (compressDataVio true 8192 { dataIsScratch := false, size := 0 } 100).compressorInvoked =
       false) :=
  ⟨⟨rfl, by decide⟩,
   (compress_stage_outcomes true 8192 { dataIsScratch := false, size := 0 } 100).2.2
     rfl (by decide)⟩

/-- C6: `readDataVIO` takes the compressed-read path exactly when the
mapped state is compressed and otherwise submits a direct read at
`mapped.pbn`; on the compressed path the read ends with status
`VDO_INVALID_FRAGMENT` exactly when the fragment header is invalid or
LZ4 does not decompress to exactly one full block, and otherwise the
decompressed scratch block becomes the read data. -/
theorem read_path_and_fragment_errors :
    (∀ mapped : data_location,
      (is_compressed mapped.state = true →
        readDataVio mapped = read_path.compressedRead mapped.pbn mapped.state) ∧
      (is_compressed mapped.state = false →
        readDataVio mapped = read_path.directRead mapped.pbn)) ∧
    (∀ (header_valid : Bool) (frag : compressed_fragment) (lz4_size : Int) (rb : read_block),
      rb.status = VDO_SUCCESS →
      (((uncompress_read_block header_valid frag lz4_size rb).status = VDO_INVALID_FRAGMENT) ↔
        (header_valid = false ∨ lz4_size ≠ (VDO_BLOCK_SIZE : Int))) ∧
      ((uncompress_read_block header_valid frag lz4_size rb).status = VDO_SUCCESS →
        (uncompress_read_block header_valid frag lz4_size rb).dataIsScratch = true)) := by
  constructor
  · intro mapped
    constructor <;> intro h <;> simp [readDataVio, h]
  · intro header_valid frag lz4_size rb hrb
    cases header_valid
    · unfold uncompress_read_block get_compressed_block_fragment
      simp [VDO_INVALID_FRAGMENT, VDO_SUCCESS]
    · unfold uncompress_read_block get_compressed_block_fragment
      by_cases hl : lz4_size = (VDO_BLOCK_SIZE : Int)
      · simp [hl, hrb, VDO_INVALID_FRAGMENT, VDO_SUCCESS]
      · simp [hl, VDO_INVALID_FRAGMENT, VDO_SUCCESS]

theorem read_path_and_fragment_errors_witness :
    ({ status := VDO_SUCCESS, dataIsScratch := false } : read_block).status = VDO_SUCCESS ∧
    ((((uncompress_read_block true { offset := 0, size := 100 } 4096
          { status := VDO_SUCCESS, dataIsScratch := false }).status = VDO_INVALID_FRAGMENT) ↔
        (true = false ∨ (4096 : Int) ≠ (VDO_BLOCK_SIZE : Int))) ∧
     ((uncompress_read_block true { offset := 0, size := 100 } 4096
         { status := VDO_SUCCESS, dataIsScratch := false }).status = VDO_SUCCESS →
       (uncompress_read_block true { offset := 0, size := 100 } 4096
         { status := VDO_SUCCESS, dataIsScratch := false }).dataIsScratch = true)) :=
  ⟨rfl,
   read_path_and_fragment_errors.2 true { offset := 0, size := 100 } 4096
     { status := VDO_SUCCESS, dataIsScratch := false } rfl⟩

/-- C7: a discard VIO is never acknowledged while discard work remains:
`acknowledgeDataVIO` completes the user bio of a discard exactly when
the remaining discard fits in this VIO's block (re-invoking the
continuation otherwise), and `kvdo_continue_discard_kvio` subtracts
`min(remaining, VDO_BLOCK_SIZE - offset)`, completes the VIO exactly
when an error was recorded or nothing remains, and otherwise relaunches
the VIO at the next LBN. -/
theorem discard_ack_and_continue :
    (∀ (remaining offset : Nat), offset ≤ VDO_BLOCK_SIZE →
      (acknowledgeDataVio true remaining offset = ack_action.acknowledge ↔
        remaining ≤ VDO_BLOCK_SIZE - offset)) ∧
    (∀ (result : Int) (remaining offset lbn : Nat),
      (kvdo_continue_discard_kvio result remaining offset lbn).1 =
        remaining - min remaining (VDO_BLOCK_SIZE - offset) ∧
      ((kvdo_continue_discard_kvio result remaining offset lbn).2 = discard_next.complete ↔
        (result ≠ VDO_SUCCESS ∨
         remaining - min remaining (VDO_BLOCK_SIZE - offset) = 0)) ∧
      ((kvdo_continue_discard_kvio result remaining offset lbn).2 ≠ discard_next.complete →
        (kvdo_continue_discard_kvio result remaining offset lbn).2 =
          discard_next.relaunch (lbn + 1)
            (decide (remaining - min remaining (VDO_BLOCK_SIZE - offset) <
              VDO_BLOCK_SIZE)))) := by
  constructor
  · intro remaining offset _
    unfold acknowledgeDataVio
    by_cases hc : VDO_BLOCK_SIZE - offset < remaining <;> simp [hc] <;> omega
  · intro result remaining offset lbn
    unfold kvdo_continue_discard_kvio
    by_cases hc : result ≠ VDO_SUCCESS ∨
        remaining - min remaining (VDO_BLOCK_SIZE - offset) = 0
    · simp [hc]
    · simp [hc]

theorem discard_ack_and_continue_witness :
    (0 : Nat) ≤ VDO_BLOCK_SIZE ∧
    (acknowledgeDataVio true 8192 0 = ack_action.acknowledge ↔
      8192 ≤ VDO_BLOCK_SIZE - 0) :=
  ⟨Nat.zero_le _, discard_ack_and_continue.1 8192 0 (Nat.zero_le _)⟩

/-- C9: a failed internal correctness predicate returns an error code
instead of aborting: `assertion_failed_log_only` returns
`UDS_ASSERTION_FAILED`, `assertion_failed` returns the caller-supplied
code, and `allocate_ref_counts_for_slab` on a slab that already has
reference counts returns the assertion failure and leaves the existing
reference counts unchanged. -/
theorem assertion_failures_return_codes :
    assertion_failed_log_only = UDS_ASSERTION_FAILED ∧
    (∀ code : Int, assertion_failed code = code) ∧
    (∀ (slab : vdo_slab) (rc : ref_counts) (data_blocks : Nat),
      slab.reference_counts = some rc →
      ((allocate_ref_counts_for_slab slab data_blocks).1 = UDS_ASSERTION_FAILED ∧
       (allocate_ref_counts_for_slab slab data_blocks).2.reference_counts = some rc)) := by
  refine ⟨rfl, fun _ => rfl, ?_⟩
  intro slab rc data_blocks h
  unfold allocate_ref_counts_for_slab vdo_assert assertion_failed
  simp [h, VDO_SUCCESS, UDS_ASSERTION_FAILED]

theorem assertion_failures_return_codes_witness :
    slabWithRefCounts.reference_counts = some { counts := [1, 1] } ∧
    ((allocate_ref_counts_for_slab slabWithRefCounts 10).1 = UDS_ASSERTION_FAILED ∧
     (allocate_ref_counts_for_slab slabWithRefCounts 10).2.reference_counts =
       some { counts := [1, 1] }) :=
  ⟨rfl,
   assertion_failures_return_codes.2.2 slabWithRefCounts { counts := [1, 1] } 10 rfl⟩

/-- C10: `modify_slab_reference_count` on a NULL slab returns success
and changes nothing; on an unrecovered slab it returns success, leaves
the reference counts, free-block count and status untouched, and its
only effect is to release one slab-journal block reference on the
journal point's sequence number. -/
theorem modify_slab_reference_count_effects :
    (∀ (jp : journal_point)
       (adjust : Option ref_counts → Except Int (Option ref_counts × Bool))
       (is_increment : Bool),
      modify_slab_reference_count none jp adjust is_increment = (VDO_SUCCESS, none)) ∧
    (∀ (slab : vdo_slab) (jp : journal_point)
       (adjust : Option ref_counts → Except Int (Option ref_counts × Bool))
       (is_increment : Bool),
      is_unrecovered_slab slab = true →
      ((modify_slab_reference_count (some slab) jp adjust is_increment).1 = VDO_SUCCESS ∧
       ∃ slab2,
         (modify_slab_reference_count (some slab) jp adjust is_increment).2 = some slab2 ∧
         slab2.reference_counts = slab.reference_counts ∧
         slab2.free_block_count = slab.free_block_count ∧
         slab2.status = slab.status ∧
         slab2.journal_block_refs jp.sequence_number =
           slab.journal_block_refs jp.sequence_number - 1 ∧
         (∀ s : Nat, s ≠ jp.sequence_number →
           slab2.journal_block_refs s = slab.journal_block_refs s))) := by
  constructor
  · intro jp adjust is_increment
    rfl
  · intro slab jp adjust is_increment h
    refine ⟨by simp [modify_slab_reference_count, h], ?_⟩
    refine ⟨{ slab with journal_block_refs :=
      adjust_slab_journal_block_reference slab.journal_block_refs jp.sequence_number (-1) },
      by simp [modify_slab_reference_count, h], rfl, rfl, rfl, ?_, ?_⟩
    · unfold adjust_slab_journal_block_reference
      simp
      omega
    · intro s hs
      unfold adjust_slab_journal_block_reference
      simp [hs]

theorem modify_slab_reference_count_effects_witness :
    is_unrecovered_slab slabUnrecovered = true ∧
    ((modify_slab_reference_count (some slabUnrecovered) { sequence_number := 9, entry_count := 0 }
        (fun rc => Except.ok (rc, false)) true).1 = VDO_SUCCESS ∧
     ∃ slab2,
       (modify_slab_reference_count (some slabUnrecovered)
         { sequence_number := 9, entry_count := 0 }
         (fun rc => Except.ok (rc, false)) true).2 = some slab2 ∧
       slab2.reference_counts = slabUnrecovered.reference_counts ∧
       slab2.free_block_count = slabUnrecovered.free_block_count ∧
       slab2.status = slabUnrecovered.status ∧
       slab2.journal_block_refs 9 = slabUnrecovered.journal_block_refs 9 - 1 ∧
       (∀ s : Nat, s ≠ 9 → slab2.journal_block_refs s = slabUnrecovered.journal_block_refs s)) :=
  ⟨by decide,
   modify_slab_reference_count_effects.2 slabUnrecovered
     { sequence_number := 9, entry_count := 0 } (fun rc => Except.ok (rc, false)) true
     (by decide)⟩
